import Mathlib

/-!
# Verification of the jackbot-sensor market-data and execution core

Shallow embedding of the Rust sources of the `jackbot-sensor` repository:
L2 order-book sequencers (Binance spot pair-ID, Bybit/Coinbase single-ID,
Gateio spot/futures, OKX prev-seq chained), the snapshot scheduler and
Iceberg catalog registration, the jackpot safety monitor, the paper
trading engine, and the reconnection circuit breaker.

Modelling conventions:
* `u64` sequence numbers are modelled as `Nat` (the sequencing logic never
  exercises wrap-around; Rust would panic on overflow in debug builds).
* `rust_decimal::Decimal` values are modelled as `ℚ` (all operations used
  by the embedded code are exact field operations and comparisons).
* `&mut self` methods are modelled as state-passing functions returning
  `result × new_state`; on an early `return Err(..)` the state is the
  unmodified input, mirroring the `?` operator.
* `Instant` / wall-clock timestamps are passed explicitly as `Nat`
  parameters (`now`), durations as `Nat`.
-/

namespace JackbotSensor

/-- Model of `Decimal::min`, written out so that it evaluates by kernel reduction. -/
def qmin (a b : ℚ) : ℚ := if a ≤ b then a else b

/-- Model of `Decimal::abs`, written out so that it evaluates by kernel reduction. -/
def qabs (a : ℚ) : ℚ := if a < 0 then -a else a

/-- Model of `DataError` from `jackbot-data`/`barter-data`: only the sequencing
variant is relevant to the embedded code. -/
inductive DataError where
  | InvalidSequence (prev_last_update_id first_update_id : Nat)
deriving DecidableEq, Repr

/-! ## Binance spot pair-ID sequencer (`jackbot-data/src/books/l2_sequencer.rs`) -/

/-- An update carrying Binance-style `U` (first) / `u` (last) update ids.
Payload fields (bids/asks) are omitted: the sequencer only reads the ids
and returns the update unchanged. -/
structure PairUpdate where
  first_update_id : Nat
  last_update_id : Nat
deriving DecidableEq, Repr

/-- Model of `BinanceSpotOrderBookL2Sequencer` state. -/
structure BinanceSpotOrderBookL2Sequencer where
  updates_processed : Nat
  last_update_id : Nat
  prev_last_update_id : Nat
deriving DecidableEq, Repr

namespace BinanceSpotOrderBookL2Sequencer

/-- Model of `BinanceSpotOrderBookL2Sequencer::new` (the `L2Sequencer::new` impl). -/
def new (last_update_id : Nat) : BinanceSpotOrderBookL2Sequencer :=
  { updates_processed := 0
    last_update_id := last_update_id
    prev_last_update_id := last_update_id }

/-- Model of `validate_first_update`: Binance Spot step 5,
`U <= lastUpdateId+1 AND u >= lastUpdateId+1`. -/
def validate_first_update (s : BinanceSpotOrderBookL2Sequencer) (u : PairUpdate) :
    Except DataError Unit :=
  if u.first_update_id ≤ s.last_update_id + 1 ∧ u.last_update_id ≥ s.last_update_id + 1 then
    .ok ()
  else
    .error (.InvalidSequence s.last_update_id u.first_update_id)

/-- Model of `validate_next_update`: the source compares the incoming `U` against
`self.prev_last_update_id + 1`. -/
def validate_next_update (s : BinanceSpotOrderBookL2Sequencer) (u : PairUpdate) :
    Except DataError Unit :=
  if u.first_update_id = s.prev_last_update_id + 1 then
    .ok ()
  else
    .error (.InvalidSequence s.prev_last_update_id u.first_update_id)

/-- Model of `validate_sequence` (the `L2Sequencer::validate_sequence` impl): run the
first/next check, then shift `prev_last_update_id := last_update_id`,
`last_update_id := u.last_update_id`, bump `updates_processed`. -/
def validate_sequence (s : BinanceSpotOrderBookL2Sequencer) (u : PairUpdate) :
    Except DataError (Option PairUpdate) × BinanceSpotOrderBookL2Sequencer :=
  let check :=
    if s.updates_processed = 0 then s.validate_first_update u else s.validate_next_update u
  match check with
  | .error e => (.error e, s)
  | .ok () =>
    (.ok (some u),
      { updates_processed := s.updates_processed + 1
        last_update_id := u.last_update_id
        prev_last_update_id := s.last_update_id })

end BinanceSpotOrderBookL2Sequencer

/-! ## Bybit spot single-ID sequencer (`barter-data/src/exchange/bybit/spot/l2.rs`) -/

/-- The `u` field of `BybitSpotOrderBookL2UpdatePayload`; bids/asks omitted. -/
structure BybitSpotOrderBookL2Update where
  sequence : Nat
deriving DecidableEq, Repr

structure BybitSpotOrderBookL2Sequencer where
  last_sequence : Nat
deriving DecidableEq, Repr

namespace BybitSpotOrderBookL2Sequencer

def new (sequence : Nat) : BybitSpotOrderBookL2Sequencer := { last_sequence := sequence }

def validate_sequence (s : BybitSpotOrderBookL2Sequencer) (u : BybitSpotOrderBookL2Update) :
    Except DataError (Option BybitSpotOrderBookL2Update) × BybitSpotOrderBookL2Sequencer :=
  if u.sequence ≤ s.last_sequence then (.ok none, s)
  else if u.sequence ≠ s.last_sequence + 1 then
    (.error (.InvalidSequence s.last_sequence u.sequence), s)
  else (.ok (some u), { last_sequence := u.sequence })

end BybitSpotOrderBookL2Sequencer

/-! ## Coinbase single-ID sequencer (`barter-data/src/exchange/coinbase/l2.rs`) -/

structure CoinbaseOrderBookL2Update where
  sequence : Nat
deriving DecidableEq, Repr

structure CoinbaseOrderBookL2Sequencer where
  sequence : Nat
deriving DecidableEq, Repr

namespace CoinbaseOrderBookL2Sequencer

def new (sequence : Nat) : CoinbaseOrderBookL2Sequencer := { sequence := sequence }

def validate_sequence (s : CoinbaseOrderBookL2Sequencer) (u : CoinbaseOrderBookL2Update) :
    Except DataError (Option CoinbaseOrderBookL2Update) × CoinbaseOrderBookL2Sequencer :=
  if u.sequence ≤ s.sequence then (.ok none, s)
  else if u.sequence ≠ s.sequence + 1 then
    (.error (.InvalidSequence s.sequence u.sequence), s)
  else (.ok (some u), { sequence := u.sequence })

end CoinbaseOrderBookL2Sequencer

/-! ## Gateio futures sequencer (`barter-data/src/exchange/gateio/future/l2.rs`) -/

/-- The `u` (`last_update_id`) field of `GateioFuturesOrderBookL2Update`. -/
structure GateioFuturesOrderBookL2Update where
  last_update_id : Nat
deriving DecidableEq, Repr

structure GateioFuturesOrderBookL2Sequencer where
  last_update_id : Nat
deriving DecidableEq, Repr

namespace GateioFuturesOrderBookL2Sequencer

def new (last_update_id : Nat) : GateioFuturesOrderBookL2Sequencer :=
  { last_update_id := last_update_id }

/-- The futures variant advances unconditionally: any update strictly newer
than `last_update_id` is accepted; there is no gap check. -/
def validate_sequence (s : GateioFuturesOrderBookL2Sequencer)
    (u : GateioFuturesOrderBookL2Update) :
    Except DataError (Option GateioFuturesOrderBookL2Update) ×
      GateioFuturesOrderBookL2Sequencer :=
  if u.last_update_id ≤ s.last_update_id then (.ok none, s)
  else (.ok (some u), { last_update_id := u.last_update_id })

end GateioFuturesOrderBookL2Sequencer

/-! ## Gateio spot pair-ID sequencer (`barter-data/src/exchange/gateio/spot/l2.rs`) -/

structure GateioSpotOrderBookL2Update where
  first_update_id : Nat
  last_update_id : Nat
deriving DecidableEq, Repr

structure GateioSpotOrderBookL2Sequencer where
  updates_processed : Nat
  last_update_id : Nat
  prev_last_update_id : Nat
deriving DecidableEq, Repr

namespace GateioSpotOrderBookL2Sequencer

def new (last_update_id : Nat) : GateioSpotOrderBookL2Sequencer :=
  { updates_processed := 0
    last_update_id := last_update_id
    prev_last_update_id := last_update_id }

def is_first_update (s : GateioSpotOrderBookL2Sequencer) : Bool :=
  s.updates_processed = 0

def validate_first_update (s : GateioSpotOrderBookL2Sequencer)
    (u : GateioSpotOrderBookL2Update) : Except DataError Unit :=
  let expected := s.last_update_id + 1
  if u.first_update_id ≤ expected ∧ u.last_update_id ≥ expected then .ok ()
  else .error (.InvalidSequence s.last_update_id u.first_update_id)

/-- Unlike the Binance variant, Gateio spot compares against
`self.last_update_id + 1` (the previously accepted update's `u`). -/
def validate_next_update (s : GateioSpotOrderBookL2Sequencer)
    (u : GateioSpotOrderBookL2Update) : Except DataError Unit :=
  let expected := s.last_update_id + 1
  if u.first_update_id = expected then .ok ()
  else .error (.InvalidSequence s.last_update_id u.first_update_id)

def validate_sequence (s : GateioSpotOrderBookL2Sequencer)
    (u : GateioSpotOrderBookL2Update) :
    Except DataError (Option GateioSpotOrderBookL2Update) ×
      GateioSpotOrderBookL2Sequencer :=
  if u.last_update_id ≤ s.last_update_id then (.ok none, s)
  else
    let check := if s.is_first_update then s.validate_first_update u
                 else s.validate_next_update u
    match check with
    | .error e => (.error e, s)
    | .ok () =>
      (.ok (some u),
        { updates_processed := s.updates_processed + 1
          last_update_id := u.last_update_id
          prev_last_update_id := s.last_update_id })

end GateioSpotOrderBookL2Sequencer

/-! ## OKX prev-seq chained sequencer (`barter-data/src/exchange/okx/l2.rs`) -/

/-- One element of the `data` array of an OKX L2 delta message; bids/asks
omitted, the sequencer only reads `seq_id` / `prev_seq_id`. -/
structure OkxData where
  seq_id : Nat
  prev_seq_id : Nat
deriving DecidableEq, Repr

structure OkxOrderBookL2Update where
  data : List OkxData
deriving DecidableEq, Repr

structure OkxOrderBookL2Sequencer where
  updates_processed : Nat
  last_seq_id : Nat
deriving DecidableEq, Repr

namespace OkxOrderBookL2Sequencer

def new (seq_id : Nat) : OkxOrderBookL2Sequencer :=
  { updates_processed := 0, last_seq_id := seq_id }

/-- Model of `validate_sequence`: take the first element of `data` (empty payload is
dropped), drop strictly older updates, then require `prev_seq_id` to chain
off `last_seq_id` (the source duplicates the check over the
`updates_processed == 0` branch; both branches are identical). -/
def validate_sequence (s : OkxOrderBookL2Sequencer) (u : OkxOrderBookL2Update) :
    Except DataError (Option OkxOrderBookL2Update) × OkxOrderBookL2Sequencer :=
  match u.data.head? with
  | none => (.ok none, s)
  | some d =>
    if d.seq_id < s.last_seq_id then (.ok none, s)
    else if s.updates_processed = 0 then
      if d.prev_seq_id ≠ s.last_seq_id then
        (.error (.InvalidSequence s.last_seq_id d.prev_seq_id), s)
      else
        (.ok (some { data := [d] }),
          { updates_processed := s.updates_processed + 1, last_seq_id := d.seq_id })
    else
      if d.prev_seq_id ≠ s.last_seq_id then
        (.error (.InvalidSequence s.last_seq_id d.prev_seq_id), s)
      else
        (.ok (some { data := [d] }),
          { updates_processed := s.updates_processed + 1, last_seq_id := d.seq_id })

end OkxOrderBookL2Sequencer

/-! ## Circuit breaker (`jackbot-integration/src/circuit_breaker.rs`)

`Instant::now()` is passed in explicitly as `now : Nat`; `Instant::elapsed`
becomes `now - t` (truncated subtraction; a monotonic clock guarantees
`t ≤ now`). `failures`/`threshold` are `u8`, so incrementing saturates
at 255. -/

structure CircuitBreaker where
  failures : Nat
  threshold : Nat
  open_since : Option Nat
  open_interval : Nat
deriving DecidableEq, Repr

namespace CircuitBreaker

def new (threshold open_interval : Nat) : CircuitBreaker :=
  { failures := 0, threshold := threshold, open_since := none,
    open_interval := open_interval }

/-- Model of `is_open`: true while less than `open_interval` has elapsed since opening. -/
def is_open (cb : CircuitBreaker) (now : Nat) : Bool :=
  match cb.open_since with
  | some t => now - t < cb.open_interval
  | none => false

/-- Model of `record_failure`: no-op while open; otherwise `saturating_add(1)` and
open the breaker at `now` once `failures ≥ threshold`. -/
def record_failure (cb : CircuitBreaker) (now : Nat) : CircuitBreaker :=
  if cb.is_open now then cb
  else
    let failures := min (cb.failures + 1) 255
    if failures ≥ cb.threshold then
      { cb with failures := failures, open_since := some now }
    else
      { cb with failures := failures }

def reset (cb : CircuitBreaker) : CircuitBreaker :=
  { cb with failures := 0, open_since := none }

/-- Model of `remaining`: time left before the breaker implicitly closes. -/
def remaining (cb : CircuitBreaker) (now : Nat) : Option Nat :=
  cb.open_since.map fun t =>
    if cb.open_interval ≤ now - t then 0 else cb.open_interval - (now - t)

end CircuitBreaker

/-! ## Snapshot scheduler and Iceberg catalog (`jackbot-snapshot/src/lib.rs`)

The filesystem and object store are modelled as explicit state; the
object store `put` of `LocalStore` copies the written records to the
destination key and returns the canonical path (here, the key). Wall
clock time (`chrono::Utc::now().timestamp_millis()`) is the `now_ms`
parameter. -/

inductive RecordType where
  | OrderBook
  | Trade
deriving DecidableEq, Repr

structure DataRecord where
  exchange : String
  market : String
  record_type : RecordType
  value : String
deriving DecidableEq, Repr

/-- Model of `FakeRedis::insert`: push onto the mutex-guarded vector. -/
def FakeRedis.insert (data : List DataRecord) (r : DataRecord) : List DataRecord :=
  data ++ [r]

/-- Model of `FakeRedis::get_all`: `self.data.lock().await.clone()` — returns a
clone of the buffer and leaves the buffer itself untouched.  Modelled as
`(returned records, buffer after the call)`. -/
def FakeRedis.get_all (data : List DataRecord) : List DataRecord × List DataRecord :=
  (data, data)

structure IcebergSnapshot where
  id : Nat
  timestamp_ms : Int
  files : List String
deriving DecidableEq, Repr

structure IcebergTable where
  format_version : Nat
  snapshots : List IcebergSnapshot
deriving DecidableEq, Repr

/-- Model of `register_with_iceberg`: read the existing metadata (or start a fresh
`format_version = 1` table), append one snapshot whose `id` and
`timestamp_ms` are both the current epoch-millis and whose `files` list
is the single uploaded path, and write the table back (a single
`fs::write`). `table = none` models a missing metadata file. -/
def register_with_iceberg (table : Option IcebergTable) (file_path : String)
    (now_ms : Nat) : IcebergTable :=
  let t := table.getD { format_version := 1, snapshots := [] }
  { t with
    snapshots := t.snapshots ++
      [{ id := now_ms, timestamp_ms := (now_ms : Int), files := [file_path] }] }

/-- One object held by the modelled `LocalStore`: destination key, the
records written to it, and its modification time (epoch ms). -/
structure StoredObject where
  key : String
  contents : List DataRecord
  modified_ms : Nat
deriving DecidableEq, Repr

/-- Model of `LocalStore::cleanup` via `cleanup_old_files`: delete every object
under `pre` whose age exceeds `retention`. -/
def LocalStore.cleanup (store : List StoredObject) (pre : String)
    (retention now_ms : Nat) : List StoredObject :=
  store.filter fun o => !(pre.isPrefixOf o.key ∧ now_ms - o.modified_ms > retention)

/-- The state touched by `SnapshotScheduler::snapshot_once`: the Redis
buffer, the object store contents, and the Iceberg metadata file
(`none` = the metadata file does not exist yet). -/
structure SnapshotState where
  redis : List DataRecord
  store : List StoredObject
  iceberg : Option IcebergTable
deriving Repr

/-- Model of `SnapshotScheduler::snapshot_once` with the scheduler's `retention`
configuration and the current wall clock `now_ms`:
1. `get_all` (a clone — the buffer is not emptied);
2. empty buffer: return with no side effects;
3. build `snapshot_<now_ms>.parquet`, partition from the first record;
4. upload to `<exchange>/<market>/<file_name>` and register the returned
   path with the Iceberg metadata;
5. sweep the partition prefix with `retention`. -/
def SnapshotScheduler.snapshot_once (s : SnapshotState) (retention now_ms : Nat) :
    SnapshotState :=
  let call := FakeRedis.get_all s.redis
  let records := call.1
  let buf := call.2
  if records.isEmpty then { s with redis := buf }
  else
    let file_name := "snapshot_" ++ toString now_ms ++ ".parquet"
    let (exchange, market) :=
      match records.head? with
      | some r => (r.exchange, r.market)
      | none => ("unknown", "unknown")
    let key := exchange ++ "/" ++ market ++ "/" ++ file_name
    let s3_path := key
    let store := s.store ++ [{ key := key, contents := records, modified_ms := now_ms }]
    let iceberg := register_with_iceberg s.iceberg s3_path now_ms
    { redis := buf
      store := LocalStore.cleanup store (exchange ++ "/" ++ market) retention now_ms
      iceberg := some iceberg }

/-! ## Execution-side data model

The `Trade` / `Order` / id types live in `jackbot-execution`'s order and
trade modules; their field shapes are taken from their uses in
`jackpot_orders/mod.rs`, `exchange/paper.rs` and the crate's tests.
Identifier newtypes (`OrderId`, `ClientOrderId`, `StrategyId`,
`InstrumentNameExchange`, `ExchangeId`, asset names) are modelled as
`String`. `DateTime<Utc>` fields are omitted: the embedded logic never
branches on them. -/

inductive Side where
  | Buy
  | Sell
deriving DecidableEq, Repr

inductive OrderKind where
  | Market
  | Limit
deriving DecidableEq, Repr

inductive TimeInForce where
  | GoodUntilCancelled
  | ImmediateOrCancel
deriving DecidableEq, Repr

/-- Model of `Trade` (fields per the construction sites in the repository's tests;
`fees` is the quote-asset fee amount of `AssetFees::quote_fees`). -/
structure Trade where
  id : String
  order_id : String
  instrument : String
  strategy : String
  side : Side
  price : ℚ
  quantity : ℚ
  fees : ℚ
deriving DecidableEq, Repr

structure OrderKey where
  exchange : String
  instrument : String
  strategy : String
  cid : String
deriving DecidableEq, Repr

structure RequestOpen where
  side : Side
  price : ℚ
  quantity : ℚ
  kind : OrderKind
  time_in_force : TimeInForce
deriving DecidableEq, Repr

structure OrderRequestOpen where
  key : OrderKey
  state : RequestOpen
deriving DecidableEq, Repr

/-! ## Jackpot safety monitor (`jackbot-execution/src/jackpot_orders/mod.rs`) -/

structure MonitoredPosition where
  side : Side
  entry_price : ℚ
  quantity : ℚ
  ticket_loss : ℚ
  strategy : String
  cid : String
deriving DecidableEq, Repr

namespace MonitoredPosition

/-- Model of `loss_exceeded`: unrealised pnl at `price` is at or below
`-ticket_loss`. -/
def loss_exceeded (p : MonitoredPosition) (price : ℚ) : Bool :=
  let value_current := price * p.quantity
  let value_entry := p.entry_price * p.quantity
  let pnl := match p.side with
    | .Buy => value_current - value_entry
    | .Sell => value_entry - value_current
  pnl ≤ -p.ticket_loss

end MonitoredPosition

/-- Model of `JackpotMonitor`: the `HashMap<InstrumentNameExchange, MonitoredPosition>`
is modelled as a function into `Option`. -/
structure JackpotMonitor where
  positions : String → Option MonitoredPosition

namespace JackpotMonitor

def empty : JackpotMonitor := ⟨fun _ => none⟩

/-- Model of `record_trade`: insert/overwrite the position keyed by the trade's
instrument; `cid` is derived from the trade's `order_id`
(`trade.order_id.into()`), quantity is `abs`ed. -/
def record_trade (m : JackpotMonitor) (trade : Trade) (ticket_loss : ℚ) :
    JackpotMonitor :=
  ⟨Function.update m.positions trade.instrument
    (some { side := trade.side
            entry_price := trade.price
            quantity := qabs trade.quantity
            ticket_loss := ticket_loss
            strategy := trade.strategy
            cid := trade.order_id })⟩

/-- Model of `update_price`: no position or loss not exceeded → `none`, monitor
unchanged. Otherwise build the opposite-side Market/IOC close request,
remove the position, and return the request. -/
def update_price (m : JackpotMonitor) (exchange : String) (instrument : String)
    (price : ℚ) : Option OrderRequestOpen × JackpotMonitor :=
  match m.positions instrument with
  | none => (none, m)
  | some pos =>
    if !pos.loss_exceeded price then (none, m)
    else
      let order : OrderRequestOpen :=
        { key := { exchange := exchange, instrument := instrument,
                   strategy := pos.strategy, cid := pos.cid }
          state := { side := match pos.side with | .Buy => .Sell | .Sell => .Buy
                     price := price
                     quantity := pos.quantity
                     kind := .Market
                     time_in_force := .ImmediateOrCancel } }
      (some order, ⟨Function.update m.positions instrument none⟩)

/-- Run a sequence of `update_price` calls for one instrument, collecting
the returned liquidation requests in order. -/
def run_updates (m : JackpotMonitor) (exchange instrument : String) :
    List ℚ → List (Option OrderRequestOpen) × JackpotMonitor
  | [] => ([], m)
  | p :: ps =>
    let step := m.update_price exchange instrument p
    let rest := run_updates step.2 exchange instrument ps
    (step.1 :: rest.1, rest.2)

end JackpotMonitor

/-! ## Paper trading engine (`jackbot-execution/src/exchange/paper.rs`) -/

/-- Model of `jackbot_data::books::Level`. -/
structure Level where
  price : ℚ
  amount : ℚ
deriving DecidableEq, Repr

structure PaperBook where
  bids : List Level
  asks : List Level
deriving DecidableEq, Repr

/-- The `while` loop body of `PaperBook::fill_market`, walking one side of
the book from the top: per level consume `min(remaining, level.amount)`,
accumulate `value += qty * price`, debit the level, and remove it when its
amount drops to (or below) zero. Returns
`(total_value, filled, remaining levels)`. When a level survives with
positive amount the loop's remaining quantity is zero, so it exits. -/
def fill_levels : ℚ → List Level → ℚ × ℚ × List Level
  | _, [] => (0, 0, [])
  | quantity, lvl :: rest =>
    if quantity ≤ 0 then (0, 0, lvl :: rest)
    else
      let trade_qty := qmin quantity lvl.amount
      if lvl.amount - trade_qty ≤ 0 then
        let r := fill_levels (quantity - trade_qty) rest
        (trade_qty * lvl.price + r.1, trade_qty + r.2.1, r.2.2)
      else
        (trade_qty * lvl.price, trade_qty,
          { price := lvl.price, amount := lvl.amount - trade_qty } :: rest)

/-- Model of `PaperBook::fill_market`: Buy walks the asks, Sell walks the bids;
average fill price is `value / filled` (zero when nothing filled).
Returns `((filled_qty, avg_price), book after the sweep)`. -/
def PaperBook.fill_market (book : PaperBook) (side : Side) (quantity : ℚ) :
    (ℚ × ℚ) × PaperBook :=
  match side with
  | .Buy =>
    let r := fill_levels quantity book.asks
    let filled := r.2.1
    let avg := if filled > 0 then r.1 / filled else 0
    ((filled, avg), { book with asks := r.2.2 })
  | .Sell =>
    let r := fill_levels quantity book.bids
    let filled := r.2.1
    let avg := if filled > 0 then r.1 / filled else 0
    ((filled, avg), { book with bids := r.2.2 })

structure Balance where
  total : ℚ
  free : ℚ
deriving DecidableEq, Repr

structure Underlying where
  base : String
  quote : String
deriving DecidableEq, Repr

structure Instrument where
  underlying : Underlying
deriving DecidableEq, Repr

/-- Model of `ApiError` sub-kinds used by the paper engine. The
`BalanceInsufficient` message is the formatted string
`"Available Balance: {free}, Required Balance inc. fees: {required}"`;
it is modelled by its two numeric components. -/
inductive ApiError where
  | InstrumentInvalid (name why : String)
  | BalanceInsufficient (asset : String) (free required : ℚ)
  | OrderRejected (why : String)
deriving DecidableEq, Repr

/-- Model of `order::state::Open` (`time_exchange` omitted). -/
structure OpenState where
  id : String
  filled_quantity : ℚ
deriving DecidableEq, Repr

deriving instance DecidableEq for Except

/-- Model of `Order<ExchangeId, InstrumentNameExchange, Result<Open, _>>`; the
exchange component of the key is inside `OrderKey`. -/
structure Order where
  key : OrderKey
  side : Side
  price : ℚ
  quantity : ℚ
  kind : OrderKind
  time_in_force : TimeInForce
  state : Except ApiError OpenState
deriving DecidableEq, Repr

structure OpenOrderNotifications where
  balance : Balance
  trade : Trade
deriving DecidableEq, Repr

/-- Model of `build_open_order_err_response`: echo the request with the terminal
error state. -/
def build_open_order_err_response (request : OrderRequestOpen) (error : ApiError) :
    Order :=
  { key := request.key
    side := request.state.side
    price := request.state.price
    quantity := request.state.quantity
    kind := request.state.kind
    time_in_force := request.state.time_in_force
    state := .error error }

/-- Model of `PaperEngine` (single exchange; maps modelled as functions into
`Option`; `account` maps asset names to balances). -/
structure PaperEngine where
  fees_percent : ℚ
  instruments : String → Option Instrument
  books : String → Option PaperBook
  account : String → Option Balance
  order_sequence : Nat

namespace PaperEngine

/-- The `balance_change_result` computation inside `open_order`: debit the
(single) quote-asset balance for a Buy by `value·(1+fee)`, for a Sell by
`filled·(1+fee)` (the source debits the quote balance in both arms), or
reject with `BalanceInsufficient`. Returns the updated balance and the
quote-denominated fees. -/
def balance_change (fees_percent : ℚ) (side : Side) (quote : String)
    (current : Balance) (filled_qty avg_price : ℚ) :
    Except ApiError (Balance × ℚ) :=
  match side with
  | .Buy =>
    let order_value_quote := avg_price * filled_qty
    let order_fees_quote := order_value_quote * fees_percent
    let quote_required := order_value_quote + order_fees_quote
    let maybe_new_balance := current.free - quote_required
    if maybe_new_balance ≥ 0 then
      .ok ({ total := maybe_new_balance, free := maybe_new_balance }, order_fees_quote)
    else
      .error (.BalanceInsufficient quote current.free quote_required)
  | .Sell =>
    let order_value_base := filled_qty
    let order_fees_base := order_value_base * fees_percent
    let base_required := order_value_base + order_fees_base
    let maybe_new_balance := current.free - base_required
    if maybe_new_balance ≥ 0 then
      .ok ({ total := maybe_new_balance, free := maybe_new_balance },
           order_fees_base * avg_price)
    else
      .error (.BalanceInsufficient quote current.free base_required)

/-- Model of `PaperEngine::open_order`. The result is `none` exactly where the Rust
code panics (`.expect("balance for quote asset")` on a missing quote
balance, or the `assert_eq!(total, free)` assertion). Note the order of
effects: the book is swept by `fill_market` *before* the balance check, so
a `BalanceInsufficient` rejection still returns the engine with the swept
book. -/
def open_order (e : PaperEngine) (request : OrderRequestOpen) :
    Option ((Order × Option OpenOrderNotifications) × PaperEngine) :=
  if request.state.kind ≠ .Market then
    some ((build_open_order_err_response request
      (.OrderRejected "PaperEngine only supports Market orders"), none), e)
  else
    match e.instruments request.key.instrument with
    | none =>
      some ((build_open_order_err_response request
        (.InstrumentInvalid request.key.instrument "unknown instrument"), none), e)
    | some instrument =>
      match e.books request.key.instrument with
      | none =>
        some ((build_open_order_err_response request
          (.InstrumentInvalid request.key.instrument "missing orderbook"), none), e)
      | some book =>
        let fill := book.fill_market request.state.side (qabs request.state.quantity)
        let filled_qty := fill.1.1
        let avg_price := fill.1.2
        let e1 : PaperEngine :=
          { e with books := Function.update e.books request.key.instrument (some fill.2) }
        match e.account instrument.underlying.quote with
        | none => none
        | some current =>
          if current.total ≠ current.free then none
          else
            match balance_change e.fees_percent request.state.side
              instrument.underlying.quote current filled_qty avg_price with
            | .error err =>
              some ((build_open_order_err_response request err, none), e1)
            | .ok (new_balance, fees_quote) =>
              let order_id := toString e1.order_sequence
              let e2 : PaperEngine :=
                { e1 with
                  account := Function.update e1.account instrument.underlying.quote
                    (some new_balance)
                  order_sequence := e1.order_sequence + 1 }
              let order_response : Order :=
                { key := request.key
                  side := request.state.side
                  price := avg_price
                  quantity := filled_qty
                  kind := request.state.kind
                  time_in_force := .ImmediateOrCancel
                  state := .ok { id := order_id, filled_quantity := filled_qty } }
              let notifications : OpenOrderNotifications :=
                { balance := new_balance
                  trade :=
                    { id := order_id
                      order_id := order_id
                      instrument := request.key.instrument
                      strategy := request.key.strategy
                      side := request.state.side
                      price := avg_price
                      quantity := filled_qty
                      fees := fees_quote } }
              some ((order_response, some notifications), e2)

end PaperEngine

/-- The paper-engine scenario of the specification: instrument `BTC-USDT`
quoted in `usdt`, book asks `[(101,1),(102,2)]`, zero fees, 1000 quote
free. -/
def demoBook : PaperBook := ⟨[], [⟨101, 1⟩, ⟨102, 2⟩]⟩

def demoEngine : PaperEngine :=
  { fees_percent := 0
    instruments := fun i => if i = "BTC-USDT" then some ⟨⟨"btc", "usdt"⟩⟩ else none
    books := fun i => if i = "BTC-USDT" then some demoBook else none
    account := fun a => if a = "usdt" then some ⟨1000, 1000⟩ else none
    order_sequence := 0 }

/-- Variant of `demoEngine` with only 100 quote units free: the Market Buy of 2
(cost 203) is rejected with `BalanceInsufficient`. -/
def lowBalanceEngine : PaperEngine :=
  { demoEngine with account := fun a => if a = "usdt" then some ⟨100, 100⟩ else none }

/-- The specification's Market Buy request of size 2. -/
def demoRequest : OrderRequestOpen :=
  { key := { exchange := "binance_spot", instrument := "BTC-USDT",
             strategy := "s", cid := "1" }
    state := { side := .Buy, price := 0, quantity := 2, kind := .Market,
               time_in_force := .ImmediateOrCancel } }

/-- Whether an `open_order` outcome is an order rejected with
`BalanceInsufficient`. -/
def isBalanceInsufficientRejection
    (r : Option ((Order × Option OpenOrderNotifications) × PaperEngine)) : Bool :=
  match r with
  | some ((o, _), _) =>
    match o.state with
    | .error (.BalanceInsufficient _ _ _) => true
    | _ => false
  | none => false

/-- Specification-side description (from the spec's words) of the safety
monitor's emissions after one `record_trade`: every price before the
first breach yields `none`; the first breaching price yields the
opposite-side Market/IOC close request carrying the position's quantity,
strategy and cid; every later price yields `none`. -/
def specLiquidationOutputs (pos : MonitoredPosition) (exchange instrument : String) :
    List ℚ → List (Option OrderRequestOpen)
  | [] => []
  | p :: ps =>
    if pos.loss_exceeded p then
      (some { key := { exchange := exchange, instrument := instrument,
                       strategy := pos.strategy, cid := pos.cid }
              state := { side := match pos.side with | .Buy => .Sell | .Sell => .Buy
                         price := p
                         quantity := pos.quantity
                         kind := .Market
                         time_in_force := .ImmediateOrCancel } })
        :: ps.map (fun _ => none)
    else none :: specLiquidationOutputs pos exchange instrument ps

/-! ## Bridges between the executable arithmetic and Mathlib order operations -/

theorem qmin_eq_min (a b : ℚ) : qmin a b = min a b := by
  simp [qmin, min_def]

theorem qabs_eq_abs (a : ℚ) : qabs a = |a| := by
  rcases lt_trichotomy a 0 with h | h | h
  · simp [qabs, h, abs_of_neg h]
  · simp [qabs, h]
  · simp [qabs, not_lt.mpr h.le, abs_of_pos h]

/-! ## Claim C1: pair-ID sequencer chaining -/

/-- Claim C1: On the code as written the claim's scenario fails: from
snapshot `lastUpdateId = 100` the update `{U:99, u:101}` is accepted, but
the correctly chained `{U:102, u:110}` (whose `U` equals the previously
accepted update's `u + 1`) is rejected with
`InvalidSequence{prev_last:100, first:102}`: `validate_next_update`
compares `U` against `prev_last_update_id`, which after one accepted
update still holds the snapshot id, not the previous update's `u`. The
third conjunct shows the code's own unit-test sequence (`{U:101,u:102}`
then `{U:103,u:105}`, asserted `is_ok` in `test_sequencer_valid_flow`)
is likewise rejected, so the code contradicts its own test. -/
theorem binance_pair_sequencer_rejects_chained_update :
    ((BinanceSpotOrderBookL2Sequencer.new 100).validate_sequence ⟨99, 101⟩).1
        = .ok (some ⟨99, 101⟩) ∧
    (((BinanceSpotOrderBookL2Sequencer.new 100).validate_sequence ⟨99, 101⟩).2.validate_sequence
        ⟨102, 110⟩).1 = .error (.InvalidSequence 100 102) ∧
    (((BinanceSpotOrderBookL2Sequencer.new 100).validate_sequence ⟨101, 102⟩).2.validate_sequence
        ⟨103, 105⟩).1 = .error (.InvalidSequence 100 103) := by
  decide

/-! ## Claim C3: single-ID monotonic dialect -/

/-- Claim C3 (counterexample): The Gateio futures sequencer does not follow
the single-ID monotonic rule claimed for "the futures variants": with
`last = 100`, the gapped update `seq = 105` is accepted (and `last`
jumps to 105) instead of yielding `InvalidSequence`. -/
theorem gateio_futures_sequencer_accepts_gap :
    (GateioFuturesOrderBookL2Sequencer.new 100).validate_sequence ⟨105⟩
        = (.ok (some ⟨105⟩), ⟨105⟩) ∧
    ((GateioFuturesOrderBookL2Sequencer.new 100).validate_sequence ⟨105⟩).1
        ≠ .error (.InvalidSequence 100 105) := by
  decide

/-- Claim C3 (amended): Bybit spot and Coinbase follow the strict single-ID
monotonic rule (`seq ≤ last` drops, `seq == last+1` accepts and advances,
anything else fails `InvalidSequence{prev_last, first}`), while the Gateio
futures variant only drops `seq ≤ last` and accepts every strictly newer
sequence without any gap check, never returning `InvalidSequence`. -/
theorem single_id_sequencer_dialect_rule (last u : Nat) :
    (u ≤ last →
      BybitSpotOrderBookL2Sequencer.validate_sequence ⟨last⟩ ⟨u⟩ = (.ok none, ⟨last⟩) ∧
      CoinbaseOrderBookL2Sequencer.validate_sequence ⟨last⟩ ⟨u⟩ = (.ok none, ⟨last⟩) ∧
      GateioFuturesOrderBookL2Sequencer.validate_sequence ⟨last⟩ ⟨u⟩ = (.ok none, ⟨last⟩)) ∧
    (u = last + 1 →
      BybitSpotOrderBookL2Sequencer.validate_sequence ⟨last⟩ ⟨u⟩ = (.ok (some ⟨u⟩), ⟨u⟩) ∧
      CoinbaseOrderBookL2Sequencer.validate_sequence ⟨last⟩ ⟨u⟩ = (.ok (some ⟨u⟩), ⟨u⟩) ∧
      GateioFuturesOrderBookL2Sequencer.validate_sequence ⟨last⟩ ⟨u⟩ = (.ok (some ⟨u⟩), ⟨u⟩)) ∧
    (last + 1 < u →
      BybitSpotOrderBookL2Sequencer.validate_sequence ⟨last⟩ ⟨u⟩ =
        (.error (.InvalidSequence last u), ⟨last⟩) ∧
      CoinbaseOrderBookL2Sequencer.validate_sequence ⟨last⟩ ⟨u⟩ =
        (.error (.InvalidSequence last u), ⟨last⟩) ∧
      GateioFuturesOrderBookL2Sequencer.validate_sequence ⟨last⟩ ⟨u⟩ = (.ok (some ⟨u⟩), ⟨u⟩)) := by
  refine ⟨fun h => ?_, fun h => ?_, fun h => ?_⟩ <;>
    simp only [BybitSpotOrderBookL2Sequencer.validate_sequence,
      CoinbaseOrderBookL2Sequencer.validate_sequence,
      GateioFuturesOrderBookL2Sequencer.validate_sequence]
  · rw [if_pos h, if_pos h, if_pos h]
    exact ⟨rfl, rfl, rfl⟩
  · subst h
    rw [if_neg (by omega), if_neg (by omega), if_neg (by omega),
      if_neg (by omega), if_neg (by omega)]
    exact ⟨rfl, rfl, rfl⟩
  · rw [if_neg (by omega), if_pos (by omega), if_neg (by omega), if_pos (by omega),
      if_neg (by omega)]
    exact ⟨rfl, rfl, rfl⟩

/-- Claim C3 (witness): The amended rule at concrete inputs: a stale update,
an exactly-chained update, and a gapped update. -/
theorem single_id_sequencer_dialect_rule_witness :
    (BybitSpotOrderBookL2Sequencer.validate_sequence ⟨100⟩ ⟨99⟩ = (.ok none, ⟨100⟩) ∧
      CoinbaseOrderBookL2Sequencer.validate_sequence ⟨100⟩ ⟨99⟩ = (.ok none, ⟨100⟩) ∧
      GateioFuturesOrderBookL2Sequencer.validate_sequence ⟨100⟩ ⟨99⟩ = (.ok none, ⟨100⟩)) ∧
    (BybitSpotOrderBookL2Sequencer.validate_sequence ⟨100⟩ ⟨101⟩ = (.ok (some ⟨101⟩), ⟨101⟩) ∧
      CoinbaseOrderBookL2Sequencer.validate_sequence ⟨100⟩ ⟨101⟩ = (.ok (some ⟨101⟩), ⟨101⟩) ∧
      GateioFuturesOrderBookL2Sequencer.validate_sequence ⟨100⟩ ⟨101⟩ = (.ok (some ⟨101⟩), ⟨101⟩)) ∧
    (BybitSpotOrderBookL2Sequencer.validate_sequence ⟨100⟩ ⟨105⟩ =
        (.error (.InvalidSequence 100 105), ⟨100⟩) ∧
      CoinbaseOrderBookL2Sequencer.validate_sequence ⟨100⟩ ⟨105⟩ =
        (.error (.InvalidSequence 100 105), ⟨100⟩) ∧
      GateioFuturesOrderBookL2Sequencer.validate_sequence ⟨100⟩ ⟨105⟩ = (.ok (some ⟨105⟩), ⟨105⟩)) :=
  ⟨(single_id_sequencer_dialect_rule 100 99).1 (by decide),
   (single_id_sequencer_dialect_rule 100 101).2.1 (by decide),
   (single_id_sequencer_dialect_rule 100 105).2.2 (by decide)⟩

/-! ## Claim C9: OKX prev-seq chained dialect -/

/-- Claim C9: The OKX sequencer with last accepted sequence `last`: an
update with `seq < last` is dropped with `Ok(None)` and the state is
unchanged; an update with `seq ≥ last` is accepted exactly when its
`prev_seq` equals `last` (in which case `last` becomes the update's
`seq`), and otherwise yields `InvalidSequence`. -/
theorem okx_sequencer_prev_seq_rule (s : OkxOrderBookL2Sequencer) (d : OkxData) :
    (d.seq_id < s.last_seq_id →
      s.validate_sequence ⟨[d]⟩ = (.ok none, s)) ∧
    (s.last_seq_id ≤ d.seq_id → d.prev_seq_id = s.last_seq_id →
      s.validate_sequence ⟨[d]⟩ =
        (.ok (some ⟨[d]⟩), ⟨s.updates_processed + 1, d.seq_id⟩)) ∧
    (s.last_seq_id ≤ d.seq_id → d.prev_seq_id ≠ s.last_seq_id →
      s.validate_sequence ⟨[d]⟩ =
        (.error (.InvalidSequence s.last_seq_id d.prev_seq_id), s)) := by
  refine ⟨fun h => ?_, fun h h2 => ?_, fun h h2 => ?_⟩ <;>
    simp only [OkxOrderBookL2Sequencer.validate_sequence, List.head?]
  · rw [if_pos h]
  · rw [if_neg (by omega)]
    rcases Nat.eq_zero_or_pos s.updates_processed with h0 | h0
    · rw [if_pos h0, if_neg (by omega)]
    · rw [if_neg (by omega), if_neg (by omega)]
  · rw [if_neg (by omega)]
    rcases Nat.eq_zero_or_pos s.updates_processed with h0 | h0
    · rw [if_pos h0, if_pos h2]
    · rw [if_neg (by omega), if_pos h2]

/-- Claim C9 (witness): The three cases of the OKX rule at concrete inputs:
a strictly older update is dropped, a chained update is accepted, and a
non-chaining newer update fails. -/
theorem okx_sequencer_prev_seq_rule_witness :
    OkxOrderBookL2Sequencer.validate_sequence ⟨0, 100⟩ ⟨[⟨50, 49⟩]⟩ = (.ok none, ⟨0, 100⟩) ∧
    OkxOrderBookL2Sequencer.validate_sequence ⟨0, 100⟩ ⟨[⟨105, 100⟩]⟩ =
      (.ok (some ⟨[⟨105, 100⟩]⟩), ⟨1, 105⟩) ∧
    OkxOrderBookL2Sequencer.validate_sequence ⟨0, 100⟩ ⟨[⟨105, 102⟩]⟩ =
      (.error (.InvalidSequence 100 102), ⟨0, 100⟩) :=
  ⟨(okx_sequencer_prev_seq_rule ⟨0, 100⟩ ⟨50, 49⟩).1 (by decide),
   (okx_sequencer_prev_seq_rule ⟨0, 100⟩ ⟨105, 100⟩).2.1 (by decide) (by decide),
   (okx_sequencer_prev_seq_rule ⟨0, 100⟩ ⟨105, 102⟩).2.2 (by decide) (by decide)⟩

/-! ## Claim C6: silent-drop of stale updates -/

/-- Claim C6 (counterexample): The Binance spot pair-ID sequencer (the
pair-ID dialect cited by the claim) has no silent-drop branch at all:
after accepting `{U:99, u:101}` from snapshot 100, re-validating that very
same update — now stale, since its `u = 101` equals the sequencer's
`last_update_id = 101` — returns `InvalidSequence`, not `Ok(None)`. -/
theorem binance_pair_sequencer_errors_on_stale :
    (((BinanceSpotOrderBookL2Sequencer.new 100).validate_sequence ⟨99, 101⟩).2).last_update_id
        = 101 ∧
    ((((BinanceSpotOrderBookL2Sequencer.new 100).validate_sequence ⟨99, 101⟩).2).validate_sequence
        ⟨99, 101⟩).1 = .error (.InvalidSequence 100 99) := by
  decide

/-- Claim C6 (amended): The single-ID variants (Bybit, Coinbase, Gateio
futures) and the Gateio spot pair-ID variant drop an already-applied or
older update (last sequence ≤ last accepted) with `Ok(None)` and unchanged
sequencer state. The OKX sequencer drops only strictly older updates
(`seq < last`). The Binance spot pair-ID sequencer has no drop branch:
any update — stale or not — is checked against the chaining rule and, when
it does not chain, produces `InvalidSequence` rather than a silent drop. -/
theorem stale_update_drop_behaviour :
    (∀ (s : BybitSpotOrderBookL2Sequencer) (u : BybitSpotOrderBookL2Update),
      u.sequence ≤ s.last_sequence → s.validate_sequence u = (.ok none, s)) ∧
    (∀ (s : CoinbaseOrderBookL2Sequencer) (u : CoinbaseOrderBookL2Update),
      u.sequence ≤ s.sequence → s.validate_sequence u = (.ok none, s)) ∧
    (∀ (s : GateioFuturesOrderBookL2Sequencer) (u : GateioFuturesOrderBookL2Update),
      u.last_update_id ≤ s.last_update_id → s.validate_sequence u = (.ok none, s)) ∧
    (∀ (s : GateioSpotOrderBookL2Sequencer) (u : GateioSpotOrderBookL2Update),
      u.last_update_id ≤ s.last_update_id → s.validate_sequence u = (.ok none, s)) ∧
    (∀ (s : OkxOrderBookL2Sequencer) (d : OkxData),
      d.seq_id < s.last_seq_id → s.validate_sequence ⟨[d]⟩ = (.ok none, s)) ∧
    (∀ (s : BinanceSpotOrderBookL2Sequencer) (u : PairUpdate),
      s.updates_processed ≠ 0 → u.first_update_id ≠ s.prev_last_update_id + 1 →
      (s.validate_sequence u).1
        = .error (.InvalidSequence s.prev_last_update_id u.first_update_id)) := by
  refine ⟨fun s u h => ?_, fun s u h => ?_, fun s u h => ?_, fun s u h => ?_,
    fun s d h => ?_, fun s u h h2 => ?_⟩
  · simp [BybitSpotOrderBookL2Sequencer.validate_sequence, if_pos h]
  · simp [CoinbaseOrderBookL2Sequencer.validate_sequence, if_pos h]
  · simp [GateioFuturesOrderBookL2Sequencer.validate_sequence, if_pos h]
  · simp [GateioSpotOrderBookL2Sequencer.validate_sequence, if_pos h]
  · simp only [OkxOrderBookL2Sequencer.validate_sequence, List.head?]
    rw [if_pos h]
  · simp only [BinanceSpotOrderBookL2Sequencer.validate_sequence,
      BinanceSpotOrderBookL2Sequencer.validate_next_update, if_neg h, if_neg h2]

/-- Claim C6 (witness): The drop (and, for Binance, error) behaviour at
concrete stale inputs. -/
theorem stale_update_drop_behaviour_witness :
    BybitSpotOrderBookL2Sequencer.validate_sequence ⟨100⟩ ⟨100⟩ = (.ok none, ⟨100⟩) ∧
    CoinbaseOrderBookL2Sequencer.validate_sequence ⟨100⟩ ⟨42⟩ = (.ok none, ⟨100⟩) ∧
    GateioFuturesOrderBookL2Sequencer.validate_sequence ⟨100⟩ ⟨100⟩ = (.ok none, ⟨100⟩) ∧
    GateioSpotOrderBookL2Sequencer.validate_sequence ⟨3, 100, 95⟩ ⟨96, 100⟩
      = (.ok none, ⟨3, 100, 95⟩) ∧
    OkxOrderBookL2Sequencer.validate_sequence ⟨2, 100⟩ ⟨[⟨99, 98⟩]⟩ = (.ok none, ⟨2, 100⟩) ∧
    (BinanceSpotOrderBookL2Sequencer.validate_sequence ⟨1, 101, 100⟩ ⟨99, 101⟩).1
      = .error (.InvalidSequence 100 99) :=
  ⟨stale_update_drop_behaviour.1 ⟨100⟩ ⟨100⟩ (by decide),
   stale_update_drop_behaviour.2.1 ⟨100⟩ ⟨42⟩ (by decide),
   stale_update_drop_behaviour.2.2.1 ⟨100⟩ ⟨100⟩ (by decide),
   stale_update_drop_behaviour.2.2.2.1 ⟨3, 100, 95⟩ ⟨96, 100⟩ (by decide),
   stale_update_drop_behaviour.2.2.2.2.1 ⟨2, 100⟩ ⟨99, 98⟩ (by decide),
   stale_update_drop_behaviour.2.2.2.2.2 ⟨1, 101, 100⟩ ⟨99, 101⟩ (by decide) (by decide)⟩

/-! ## Claim C10: circuit breaker -/

/-- Folding `record_failure` over exactly enough consecutive failure times
to reach the threshold takes a closed breaker to the open state, opened at
the time of the last failure. -/
theorem record_failure_fold_opens (ts : List Nat) :
    ∀ (cb : CircuitBreaker), cb.open_since = none →
      cb.failures + ts.length = cb.threshold → cb.threshold ≤ 255 →
      ∀ (h4 : ts ≠ []),
      ts.foldl CircuitBreaker.record_failure cb =
        { cb with failures := cb.threshold, open_since := some (ts.getLast h4) } := by
  induction ts with
  | nil => intro cb _ _ _ h4; exact absurd rfl h4
  | cons t ts ih =>
    intro cb h1 h2 h3 _
    rcases ts with _ | ⟨t2, ts'⟩
    · simp only [List.foldl, List.getLast]
      unfold CircuitBreaker.record_failure
      simp only [CircuitBreaker.is_open, h1, Bool.false_eq_true, if_false]
      rw [if_pos (by simp at h2; omega)]
      simp at h2
      simp [h2, Nat.min_eq_left h3]
    · rw [List.foldl_cons]
      have hstep : cb.record_failure t =
          { cb with failures := cb.failures + 1 } := by
        unfold CircuitBreaker.record_failure
        simp only [CircuitBreaker.is_open, h1, Bool.false_eq_true, if_false]
        rw [if_neg (by simp at h2; omega)]
        congr 1
        simp at h2
        omega
      rw [hstep]
      rw [ih { cb with failures := cb.failures + 1 } h1 (by simp at h2 ⊢; omega) h3
        (by simp)]
      simp [List.getLast]

/-- Claim C10: A breaker created closed with `1 ≤ threshold ≤ 255` opens
after exactly `threshold` consecutive `record_failure` calls (at the time
of the last call); `is_open` then stays `true` at every instant strictly
less than `open_interval` after opening and turns `false` once
`open_interval` has elapsed; `reset` makes any breaker's `is_open`
immediately `false`. -/
theorem circuit_breaker_threshold_open (threshold interval : Nat) (ts : List Nat)
    (h1 : 1 ≤ threshold) (h2 : threshold ≤ 255) (h3 : ts.length = threshold)
    (h4 : ts ≠ []) :
    (ts.foldl CircuitBreaker.record_failure (CircuitBreaker.new threshold interval)).open_since
        = some (ts.getLast h4) ∧
    (∀ now, now - ts.getLast h4 < interval →
      (ts.foldl CircuitBreaker.record_failure
        (CircuitBreaker.new threshold interval)).is_open now = true) ∧
    (∀ now, interval ≤ now - ts.getLast h4 →
      (ts.foldl CircuitBreaker.record_failure
        (CircuitBreaker.new threshold interval)).is_open now = false) ∧
    (∀ (cb : CircuitBreaker) (now : Nat), cb.reset.is_open now = false) := by
  have key := record_failure_fold_opens ts (CircuitBreaker.new threshold interval) rfl
    (by simp [CircuitBreaker.new, h3]) h2 h4
  rw [key]
  refine ⟨rfl, fun now hnow => ?_, fun now hnow => ?_, fun cb now => ?_⟩
  · simp [CircuitBreaker.is_open, CircuitBreaker.new, hnow]
  · simp [CircuitBreaker.is_open, CircuitBreaker.new]
    omega
  · simp [CircuitBreaker.reset, CircuitBreaker.is_open]

/-- Claim C10 (witness): A breaker with threshold 2 and interval 5, failing
at times 10 and 20: open at 20, `is_open` true at 24, false at 25, and
`reset` closes an open breaker immediately. -/
theorem circuit_breaker_threshold_open_witness :
    (([10, 20] : List Nat).foldl CircuitBreaker.record_failure
        (CircuitBreaker.new 2 5)).open_since = some 20 ∧
    (([10, 20] : List Nat).foldl CircuitBreaker.record_failure
        (CircuitBreaker.new 2 5)).is_open 24 = true ∧
    (([10, 20] : List Nat).foldl CircuitBreaker.record_failure
        (CircuitBreaker.new 2 5)).is_open 25 = false ∧
    (CircuitBreaker.reset ⟨7, 2, some 20, 5⟩).is_open 21 = false := by
  have h := circuit_breaker_threshold_open 2 5 [10, 20] (by decide) (by decide)
    (by decide) (by decide)
  exact ⟨h.1, h.2.1 24 (by decide), h.2.2.1 25 (by decide), h.2.2.2 ⟨7, 2, some 20, 5⟩ 21⟩

/-! ## Claim C2: snapshot drain -/

/-- Claim C2 (counterexample): A successful `snapshot_once` over the
single-record buffer does *not* empty it: `get_all` clones the vector
instead of taking it, so the record is still buffered afterwards. -/
theorem snapshot_once_leaves_buffer_nonempty :
    (SnapshotScheduler.snapshot_once
        ⟨[⟨"exch", "eth-usd", .OrderBook, "v"⟩], [], none⟩ 1000 5).redis
      = [⟨"exch", "eth-usd", .OrderBook, "v"⟩] ∧
    (SnapshotScheduler.snapshot_once
        ⟨[⟨"exch", "eth-usd", .OrderBook, "v"⟩], [], none⟩ 1000 5).redis
      ≠ [] := by
  decide

/-- Claim C2 (amended): `snapshot_once` reads a clone of the record buffer
(`get_all` copies under the mutex) and never removes records: after any
cycle — successful upload or empty skip — the buffer is exactly what it
was before, and the next cycle's `get_all` sees all previous records plus
any record inserted since. -/
theorem snapshot_once_preserves_buffer (s : SnapshotState) (retention now_ms : Nat)
    (r : DataRecord) :
    (SnapshotScheduler.snapshot_once s retention now_ms).redis = s.redis ∧
    (FakeRedis.get_all (FakeRedis.insert
        (SnapshotScheduler.snapshot_once s retention now_ms).redis r)).1
      = s.redis ++ [r] := by
  have h : (SnapshotScheduler.snapshot_once s retention now_ms).redis = s.redis := by
    unfold SnapshotScheduler.snapshot_once FakeRedis.get_all
    dsimp only
    split <;> rfl
  exact ⟨h, by simp [FakeRedis.get_all, FakeRedis.insert, h]⟩

/-! ## Claim C4: Iceberg catalog registration -/

/-- Claim C4 (counterexample): The snapshot id appended by
`register_with_iceberg` is the epoch-millis timestamp, not
`previous id + 1` (and `IcebergTable` has no `current_snapshot_id` field
at all): registering at `now_ms = 1000` on an empty catalog produces id
1000 (the claim would require 1), and a second registration at
`now_ms = 1005` produces id 1005 ≠ 1000 + 1. -/
theorem iceberg_snapshot_id_not_incremental :
    (register_with_iceberg none "exch/eth-usd/a" 1000).snapshots.map
        (fun s => s.id) = [1000] ∧
    (1000 : Nat) ≠ 1 ∧
    (register_with_iceberg (some (register_with_iceberg none "exch/eth-usd/a" 1000))
        "exch/eth-usd/b" 1005).snapshots.map (fun s => s.id) = [1000, 1005] ∧
    (1005 : Nat) ≠ 1000 + 1 := by
  decide

/-- Model of `snapshot_once` on a non-empty buffer: the buffer is echoed back, one
object is uploaded under the `<exchange>/<market>` partition of the first
record, and its path is registered with the catalog. -/
theorem snapshot_once_cons (r0 : DataRecord) (rs : List DataRecord)
    (store : List StoredObject) (ice : Option IcebergTable) (retention now_ms : Nat) :
    SnapshotScheduler.snapshot_once ⟨r0 :: rs, store, ice⟩ retention now_ms =
      ⟨r0 :: rs,
       LocalStore.cleanup
         (store ++ [⟨r0.exchange ++ "/" ++ r0.market ++ "/" ++
            ("snapshot_" ++ toString now_ms ++ ".parquet"), r0 :: rs, now_ms⟩])
         (r0.exchange ++ "/" ++ r0.market) retention now_ms,
       some (register_with_iceberg ice
         (r0.exchange ++ "/" ++ r0.market ++ "/" ++
           ("snapshot_" ++ toString now_ms ++ ".parquet")) now_ms)⟩ := by
  simp [SnapshotScheduler.snapshot_once, FakeRedis.get_all]

/-- Claim C4 (amended): Every registration appends exactly one snapshot
entry carrying exactly one file path, with `id = timestamp_ms = now_ms`
(the wall clock, not a `+1` counter), as a single metadata write; and two
non-empty scheduler runs on a fresh catalog leave exactly two snapshot
entries, one file each. -/
theorem register_with_iceberg_appends_single_file_entry
    (t : Option IcebergTable) (p : String) (now_ms : Nat) :
    ((register_with_iceberg t p now_ms).snapshots =
      (t.getD { format_version := 1, snapshots := [] }).snapshots ++
        [{ id := now_ms, timestamp_ms := (now_ms : Int), files := [p] }]) ∧
    (∀ (s : SnapshotState) (r1 n1 r2 n2 : Nat), s.iceberg = none → s.redis ≠ [] →
      ∃ tbl,
        (SnapshotScheduler.snapshot_once
            (SnapshotScheduler.snapshot_once s r1 n1) r2 n2).iceberg = some tbl ∧
        tbl.snapshots.length = 2 ∧
        ∀ snap ∈ tbl.snapshots, snap.files.length = 1) := by
  constructor
  · simp [register_with_iceberg]
  · intro s r1 n1 r2 n2 hi hr
    rcases s with ⟨redis, store, iceberg⟩
    rcases redis with _ | ⟨r0, rs⟩
    · exact absurd rfl hr
    · simp only at hi
      subst hi
      rw [snapshot_once_cons, snapshot_once_cons]
      exact ⟨_, rfl, by simp [register_with_iceberg], by simp [register_with_iceberg]⟩

/-- Claim C4 (witness): Two scheduler runs over a fresh catalog with a
non-empty buffer yield two one-file snapshot entries. -/
theorem register_with_iceberg_appends_single_file_entry_witness :
    ∃ tbl,
      (SnapshotScheduler.snapshot_once (SnapshotScheduler.snapshot_once
          ⟨[⟨"exch", "eth-usd", .OrderBook, "v"⟩], [], none⟩ 10 1000) 10 2000).iceberg
        = some tbl ∧
      tbl.snapshots.length = 2 ∧
      ∀ snap ∈ tbl.snapshots, snap.files.length = 1 :=
  (register_with_iceberg_appends_single_file_entry none "x" 0).2
    ⟨[⟨"exch", "eth-usd", .OrderBook, "v"⟩], [], none⟩ 10 1000 10 2000 rfl (by decide)

/-! ## Claim C5: at-most-one liquidation per recorded trade -/

/-- With no monitored position for the instrument, every `update_price`
returns `none` and the monitor is untouched. -/
theorem run_updates_no_position (exchange instrument : String) (ps : List ℚ)
    (m : JackpotMonitor) (h : m.positions instrument = none) :
    JackpotMonitor.run_updates m exchange instrument ps = (ps.map (fun _ => none), m) := by
  induction ps with
  | nil => rfl
  | cons p ps ih =>
    simp [JackpotMonitor.run_updates, JackpotMonitor.update_price, h, ih]

/-- With a monitored position present, `run_updates` produces exactly the
specification-side output list. -/
theorem run_updates_spec (exchange instrument : String) (pos : MonitoredPosition)
    (ps : List ℚ) :
    ∀ (m : JackpotMonitor), m.positions instrument = some pos →
      (JackpotMonitor.run_updates m exchange instrument ps).1 =
        specLiquidationOutputs pos exchange instrument ps := by
  induction ps with
  | nil => intro m _; rfl
  | cons p ps ih =>
    intro m h
    cases hb : pos.loss_exceeded p with
    | false =>
      simp only [JackpotMonitor.run_updates, JackpotMonitor.update_price, h, hb,
        specLiquidationOutputs, if_false, Bool.not_false, if_true, Bool.false_eq_true]
      exact congrArg (List.cons none) (ih m h)
    | true =>
      simp only [JackpotMonitor.run_updates, JackpotMonitor.update_price, h, hb,
        specLiquidationOutputs, Bool.not_true, Bool.false_eq_true, if_false, if_true]
      rw [run_updates_no_position exchange instrument ps _ (by simp)]

/-- The specification-side output list contains at most one `some`. -/
theorem specLiquidationOutputs_countP_le_one (pos : MonitoredPosition)
    (exchange instrument : String) (ps : List ℚ) :
    (specLiquidationOutputs pos exchange instrument ps).countP
      (fun o => o.isSome) ≤ 1 := by
  induction ps with
  | nil => simp [specLiquidationOutputs]
  | cons p ps ih =>
    simp only [specLiquidationOutputs]
    split
    · rw [List.countP_cons]
      have hz : (ps.map (fun _ => (none : Option OrderRequestOpen))).countP
          (fun o => o.isSome) = 0 := by
        induction ps with
        | nil => rfl
        | cons q qs ihq => simpa [List.countP_cons] using ihq
      simp [hz]
    · simpa [List.countP_cons] using ih

/-- Claim C5: After `record_trade`, any sequence of `update_price` calls for
that instrument emits exactly the specification-side output list — every
price before the first breach yields `none`, the first breaching price
yields the opposite-side Market/IOC close of the recorded quantity
reusing the position's strategy and cid (derived from the trade's order
id), every later price yields `none` — and in particular at most one call
returns `some` liquidation request. -/
theorem jackpot_monitor_at_most_one_liquidation (m : JackpotMonitor) (trade : Trade)
    (ticket_loss : ℚ) (exchange : String) (prices : List ℚ) :
    (JackpotMonitor.run_updates (m.record_trade trade ticket_loss) exchange
        trade.instrument prices).1 =
      specLiquidationOutputs
        ⟨trade.side, trade.price, qabs trade.quantity, ticket_loss,
          trade.strategy, trade.order_id⟩ exchange trade.instrument prices ∧
    (JackpotMonitor.run_updates (m.record_trade trade ticket_loss) exchange
        trade.instrument prices).1.countP (fun o => o.isSome) ≤ 1 := by
  have hpos : (m.record_trade trade ticket_loss).positions trade.instrument =
      some ⟨trade.side, trade.price, qabs trade.quantity, ticket_loss,
        trade.strategy, trade.order_id⟩ := by
    simp [JackpotMonitor.record_trade]
  have hspec := run_updates_spec exchange trade.instrument _ prices _ hpos
  refine ⟨hspec, ?_⟩
  rw [hspec]
  exact specLiquidationOutputs_countP_le_one _ _ _ _

/-! ## Claim C7: paper-engine market fill -/

/-- The fill loop consumes `min(remaining, level.amount)` per level: over
levels with positive amounts, the total filled quantity is the minimum of
the requested quantity and the side's total depth. -/
theorem fill_levels_filled_min (q : ℚ) (levels : List Level) (hq : 0 ≤ q)
    (hpos : ∀ l ∈ levels, 0 < l.amount) :
    (fill_levels q levels).2.1 = min q ((levels.map (fun l => l.amount)).sum) := by
  induction levels generalizing q with
  | nil =>
    simp only [fill_levels, List.map_nil, List.sum_nil]
    exact (min_eq_right hq).symm
  | cons l ls ih =>
    have hl : 0 < l.amount := hpos l (by simp)
    have hs : 0 ≤ (ls.map (fun l => l.amount)).sum := by
      refine List.sum_nonneg ?_
      intro x hx
      rcases List.mem_map.mp hx with ⟨a, ha, rfl⟩
      exact (hpos a (by simp [ha])).le
    rcases hq.eq_or_lt with rfl | hq'
    · simp only [fill_levels, le_refl, if_true, List.map_cons, List.sum_cons]
      have : (0 : ℚ) ≤ l.amount + (ls.map (fun l => l.amount)).sum := by linarith
      simp [min_eq_left this]
    · simp only [fill_levels, List.map_cons, List.sum_cons]
      rw [if_neg (not_le.mpr hq'), qmin_eq_min]
      rcases le_or_lt l.amount q with hla | hla
      · rw [min_eq_right hla, if_pos (by linarith)]
        have ihq := ih (q - l.amount) (by linarith)
          (fun x hx => hpos x (by simp [hx]))
        dsimp only
        rw [ihq]
        rw [min_def, min_def]
        split_ifs <;> linarith
      · rw [min_eq_left hla.le, if_neg (by linarith)]
        dsimp only
        rw [min_eq_left (by linarith)]

/-- When nothing was filled, the reported average fill price is zero. -/
theorem fill_market_avg_zero (book : PaperBook) (side : Side) (q : ℚ)
    (h : (book.fill_market side q).1.1 = 0) : (book.fill_market side q).1.2 = 0 := by
  cases side <;>
    dsimp only [PaperBook.fill_market] at h ⊢ <;>
    rw [h] <;> simp

/-- Claim C7: With asks `[(101,1),(102,2)]`, a quote balance of 1000 and
zero fees, a Market Buy of 2 fills quantity 2 at average price 101.5
(value 203), leaves the asks as `[(102,1)]` and the balance at
1000 − 203 = 797. In general the fill consumes
`min(remaining, level.amount)` per level from the top (total filled =
`min(requested, total depth)` on a positive-amount book), and the average
price is zero when nothing is filled. -/
theorem paper_engine_market_buy_fill :
    ((demoEngine.open_order demoRequest).map
      (fun r => (r.1.1.state, r.1.1.price, r.1.1.quantity, r.1.2,
                 r.2.books "BTC-USDT", r.2.account "usdt")) =
      some (.ok ⟨"0", 2⟩, 203/2, 2,
            some ⟨⟨797, 797⟩,
              { id := "0", order_id := "0", instrument := "BTC-USDT", strategy := "s",
                side := .Buy, price := 203/2, quantity := 2, fees := 0 }⟩,
            some ⟨[], [⟨102, 1⟩]⟩, some ⟨797, 797⟩)) ∧
    (∀ (q : ℚ) (levels : List Level), 0 ≤ q → (∀ l ∈ levels, 0 < l.amount) →
      (fill_levels q levels).2.1 = min q ((levels.map (fun l => l.amount)).sum)) ∧
    (∀ (book : PaperBook) (side : Side) (q : ℚ),
      (book.fill_market side q).1.1 = 0 → (book.fill_market side q).1.2 = 0) := by
  refine ⟨?_, fill_levels_filled_min, fill_market_avg_zero⟩
  norm_num [demoEngine, demoRequest, demoBook, PaperEngine.open_order,
    PaperEngine.balance_change, PaperBook.fill_market, fill_levels, qmin, qabs,
    Function.update]
  all_goals decide

/-- Claim C7 (witness): The general fill facts at concrete inputs: the demo
book's depth-limited fill, and a Buy against an empty ask side reporting
average price zero. -/
theorem paper_engine_market_buy_fill_witness :
    (fill_levels 2 [⟨101, 1⟩, ⟨102, 2⟩]).2.1 =
      min 2 ((([⟨101, 1⟩, ⟨102, 2⟩] : List Level).map (fun l => l.amount)).sum) ∧
    (PaperBook.fill_market ⟨[⟨99, 1⟩], []⟩ .Buy 5).1.2 = 0 :=
  ⟨paper_engine_market_buy_fill.2.1 2 [⟨101, 1⟩, ⟨102, 2⟩] (by norm_num)
      (by
        intro l hl
        simp only [List.mem_cons, List.mem_singleton, List.not_mem_nil, or_false] at hl
        rcases hl with rfl | rfl <;> norm_num),
   paper_engine_market_buy_fill.2.2 ⟨[⟨99, 1⟩], []⟩ .Buy 5 rfl⟩

/-! ## Claim C8: rejected order still sweeps the book -/

/-- Claim C8: Whenever `open_order` rejects with `BalanceInsufficient`, no
notifications are emitted, the account and the order-id sequence are
untouched — but the book of the requested instrument has already been
swept by `fill_market`, and no other book changed. The concrete conjuncts
show the scenario book losing its `(101,1)` level to a rejected order. -/
theorem paper_engine_insufficient_balance_frame :
    (∀ (e : PaperEngine) (req : OrderRequestOpen),
      isBalanceInsufficientRejection (e.open_order req) = true →
      ((e.open_order req).map (fun r => r.1.2) = some none ∧
       (∀ a, (e.open_order req).map (fun r => r.2.account a) = some (e.account a)) ∧
       ((e.open_order req).map (fun r => r.2.order_sequence) = some e.order_sequence) ∧
       (∃ b, e.books req.key.instrument = some b ∧
         (e.open_order req).map (fun r => r.2.books req.key.instrument) =
           some (some (b.fill_market req.state.side (qabs req.state.quantity)).2)) ∧
       (∀ i, i ≠ req.key.instrument →
         (e.open_order req).map (fun r => r.2.books i) = some (e.books i)))) ∧
    (isBalanceInsufficientRejection (lowBalanceEngine.open_order demoRequest) = true ∧
     (lowBalanceEngine.open_order demoRequest).map
        (fun r => (r.1.1.state, r.1.2, r.2.books "BTC-USDT", r.2.account "usdt")) =
       some (.error (.BalanceInsufficient "usdt" 100 203), none,
             some ⟨[], [⟨102, 1⟩]⟩, some ⟨100, 100⟩) ∧
     lowBalanceEngine.books "BTC-USDT" = some ⟨[], [⟨101, 1⟩, ⟨102, 2⟩]⟩ ∧
     some (⟨[], [⟨102, 1⟩]⟩ : PaperBook) ≠
       some (⟨[], [⟨101, 1⟩, ⟨102, 2⟩]⟩ : PaperBook)) := by
  constructor
  · intro e req h
    by_cases hk : req.state.kind = OrderKind.Market
    · rcases hinst : e.instruments req.key.instrument with _ | inst
      · simp [PaperEngine.open_order, hk, hinst, isBalanceInsufficientRejection,
          build_open_order_err_response] at h
      · rcases hbook : e.books req.key.instrument with _ | b
        · simp [PaperEngine.open_order, hk, hinst, hbook,
            isBalanceInsufficientRejection, build_open_order_err_response] at h
        · rcases hacc : e.account inst.underlying.quote with _ | cur
          · simp [PaperEngine.open_order, hk, hinst, hbook, hacc,
              isBalanceInsufficientRejection] at h
          · by_cases hbal : cur.total = cur.free
            · rcases hbc : PaperEngine.balance_change e.fees_percent req.state.side
                  inst.underlying.quote cur
                  (b.fill_market req.state.side (qabs req.state.quantity)).1.1
                  (b.fill_market req.state.side (qabs req.state.quantity)).1.2
                with err | ok
              · have heq : e.open_order req =
                    some ((build_open_order_err_response req err, none),
                      { e with books :=
                          (Function.update e.books req.key.instrument
                            (some (b.fill_market req.state.side
                              (qabs req.state.quantity)).2)) }) := by
                  simp [PaperEngine.open_order, hk, hinst, hbook, hacc, hbal, hbc]
                rw [heq]
                exact ⟨rfl, fun a => rfl, rfl,
                  ⟨b, rfl, by simp [Function.update_same]⟩,
                  fun i hi => by simp [Function.update_noteq hi]⟩
              · simp [PaperEngine.open_order, hk, hinst, hbook, hacc, hbal, hbc,
                  isBalanceInsufficientRejection] at h
            · simp [PaperEngine.open_order, hk, hinst, hbook, hacc, hbal,
                isBalanceInsufficientRejection] at h
    · simp [PaperEngine.open_order, hk, isBalanceInsufficientRejection,
        build_open_order_err_response] at h
  · refine ⟨?_, ?_, ?_, ?_⟩
    · norm_num [lowBalanceEngine, demoEngine, demoRequest, demoBook,
        PaperEngine.open_order, PaperEngine.balance_change, PaperBook.fill_market,
        fill_levels, qmin, qabs, isBalanceInsufficientRejection,
        build_open_order_err_response]
    · norm_num [lowBalanceEngine, demoEngine, demoRequest, demoBook,
        PaperEngine.open_order, PaperEngine.balance_change, PaperBook.fill_market,
        fill_levels, qmin, qabs, build_open_order_err_response, Function.update]
    · norm_num [lowBalanceEngine, demoEngine, demoBook]
    · decide

/-- Claim C8 (witness): The frame facts of the general part instantiated at
the low-balance scenario engine. -/
theorem paper_engine_insufficient_balance_frame_witness :
    (lowBalanceEngine.open_order demoRequest).map (fun r => r.1.2) = some none ∧
    (lowBalanceEngine.open_order demoRequest).map (fun r => r.2.order_sequence)
      = some lowBalanceEngine.order_sequence ∧
    (lowBalanceEngine.open_order demoRequest).map (fun r => r.2.account "usdt")
      = some (lowBalanceEngine.account "usdt") := by
  have h := paper_engine_insufficient_balance_frame.1 lowBalanceEngine demoRequest
    (by norm_num [lowBalanceEngine, demoEngine, demoRequest, demoBook,
      PaperEngine.open_order, PaperEngine.balance_change, PaperBook.fill_market,
      fill_levels, qmin, qabs, isBalanceInsufficientRejection,
      build_open_order_err_response])
  exact ⟨h.1, h.2.2.1, h.2.1 "usdt"⟩

end JackbotSensor
